import Mathlib

/-!
Verification of the conversation-session identity resolution and
synchronization engine of the PDF-chat frontend.

The definitions below are a shallow embedding of the current Chat
component (`src/unnamed/part_001`) and of `src/lib/api.ts`:

* `effectiveChatId` embeds the session-key resolver (part_001 lines 110-118);
* `handleSendSync` embeds the synchronous phase of `handleSend`
  (part_001 lines 298-309);
* `sendAsync` embeds the asynchronous dispatch-with-fallback flow
  (part_001 lines 311-408), with the backend `askQuestion` call abstracted
  as an oracle `server : String → String → Except String String`;
* `historyMessagesFor`, `applyHistoryResult`, `changeSession`,
  `resolveHistory` embed the history-loading effect (part_001 lines 177-252),
  with the effect's `isMounted` liveness flag modelled by an epoch counter
  (the flag of a given effect run is `true` exactly while no cleanup for
  that run has executed, i.e. while the epoch is unchanged);
* `PdfState`/`stepPdf` embed the PDF object-URL lifecycle effect
  (part_001 lines 257-293) as a small operational model whose events are
  effect (re)starts, fetch resolutions and unmount.
-/

namespace PdfChat

/-- JS truthiness of a string: truthy iff non-empty. -/
def strTruthy (s : String) : Bool := !(s == "")

/-- JS `String.prototype.startsWith`, modelled as a character-list
prefix test (identical to the JS code-unit test on the ASCII keys used
by this program). -/
def jsStartsWith (s pre : String) : Bool := pre.data.isPrefixOf s.data

/-- JS `String.prototype.trim`, modelled on the character list: drop
leading and trailing whitespace. -/
def jsTrim (s : String) : String :=
  ⟨((s.data.dropWhile Char.isWhitespace).reverse.dropWhile Char.isWhitespace).reverse⟩

theorem isPrefixOf_append_self (l t : List Char) : l.isPrefixOf (l ++ t) = true := by
  induction l with
  | nil => simp
  | cons a as ih => simp [List.isPrefixOf_cons₂, ih]

theorem jsStartsWith_append (pre s : String) : jsStartsWith (pre ++ s) pre = true := by
  simp [jsStartsWith, isPrefixOf_append_self]

theorem jsStartsWith_of_empty (pre : String) (h : pre ≠ "") :
    jsStartsWith "" pre = false := by
  unfold jsStartsWith
  cases pre with
  | mk d =>
    cases d with
    | nil => exact absurd rfl h
    | cons a as => rfl

/-- The `pdfId` extraction (part_001 line 111):
`new URLSearchParams(location.search).get("pdf") || ""`. An absent query
parameter (`null`) and an empty one both yield `""`. -/
def pdfIdOf (queryPdf : Option String) : String := queryPdf.getD ""

/-- The session-key resolver (part_001 lines 114-118):

```
if (paramChatId && paramChatId.startsWith("chat_")) return paramChatId;
if (pdfId) return `chat_${pdfId}`;
return undefined;
```
-/
def effectiveChatId (paramChatId : Option String) (pdfId : String) : Option String :=
  match paramChatId with
  | some p =>
    if strTruthy p && jsStartsWith p "chat_" then some p
    else if strTruthy pdfId then some ("chat_" ++ pdfId) else none
  | none => if strTruthy pdfId then some ("chat_" ++ pdfId) else none

/-- The resolver as invoked by the component: route param plus raw query
parameter. Returns the pair {sessionKey, documentKey}. -/
def resolve (routeParam queryParam : Option String) : Option String × String :=
  (effectiveChatId routeParam (pdfIdOf queryParam), pdfIdOf queryParam)

/-- Modelled from the spec: the three-case reference definition of
`IdentifierResolver.resolve` written from the spec's words (§4.1 cases 1-3):
use `routeParam` verbatim when it carries the canonical session-key prefix,
else derive `"chat_" + documentKey` when a documentKey is available from
the query input, else no session key. Used only as the comparison point of
the refinement claim about the resolver. -/
def resolveSpecRef (routeParam queryParam : Option String) : Option String :=
  match routeParam with
  | some r =>
    if jsStartsWith r "chat_" then some r
    else
      match queryParam with
      | some d => if d = "" then none else some ("chat_" ++ d)
      | none => none
  | none =>
    match queryParam with
    | some d => if d = "" then none else some ("chat_" ++ d)
    | none => none

theorem strTruthy_of_ne (s : String) (h : s ≠ "") : strTruthy s = true := by
  simp [strTruthy, h]

theorem effectiveChatId_eq_spec (route query : Option String) :
    (resolve route query).1 = resolveSpecRef route query := by
  cases route with
  | none =>
    cases query with
    | none => rfl
    | some d =>
      by_cases hd : d = "" <;>
        simp [resolve, resolveSpecRef, effectiveChatId, pdfIdOf, strTruthy, hd]
  | some p =>
    by_cases hp : p = ""
    · subst hp
      have hpre : jsStartsWith "" "chat_" = false :=
        jsStartsWith_of_empty "chat_" (by decide)
      cases query with
      | none => simp [resolve, resolveSpecRef, effectiveChatId, pdfIdOf, strTruthy, hpre]
      | some d =>
        by_cases hd : d = "" <;>
          simp [resolve, resolveSpecRef, effectiveChatId, pdfIdOf, strTruthy, hpre, hd]
    · have ht : strTruthy p = true := strTruthy_of_ne p hp
      cases hw : jsStartsWith p "chat_" with
      | true =>
        cases query with
        | none => simp [resolve, resolveSpecRef, effectiveChatId, pdfIdOf, ht, hw]
        | some d => simp [resolve, resolveSpecRef, effectiveChatId, pdfIdOf, ht, hw]
      | false =>
        cases query with
        | none => simp [resolve, resolveSpecRef, effectiveChatId, pdfIdOf, strTruthy, ht, hw]
        | some d =>
          by_cases hd : d = "" <;>
            simp [resolve, resolveSpecRef, effectiveChatId, pdfIdOf, strTruthy, ht, hw, hd]

/-- The role union type of the `Message` interface (part_001 line 98). -/
inductive Role where
  | user
  | assistant
deriving DecidableEq, Repr

/-- The `Message` interface (part_001 lines 96-101). -/
structure Message where
  id : String
  role : Role
  content : String
  timestamp : String
deriving DecidableEq, Repr

/-- One element of `data.interactions` returned by
`getChatHistory` (api.ts `ChatInteraction`). -/
structure ChatInteraction where
  question : String
  answer : String
  asked_at : String
deriving DecidableEq, Repr

/-- The history expansion loop (part_001 lines 202-217): each interaction
becomes one user Message followed by one assistant Message, in order. -/
def expandInteractions (its : List ChatInteraction) : List Message :=
  its.enum.flatMap fun p =>
    [ { id := toString p.1 ++ "-q", role := .user,
        content := p.2.question, timestamp := p.2.asked_at },
      { id := toString p.1 ++ "-a", role := .assistant,
        content := p.2.answer, timestamp := p.2.asked_at } ]

/-- Assistant message shown when the history is empty (part_001 lines 219-227). -/
def emptyHistoryMessage : Message :=
  { id := "welcome", role := .assistant,
    content := "No previous interactions found. Ask a question to get started!",
    timestamp := "Just now" }

/-- Assistant message shown when the history fetch fails (part_001 lines 232-240). -/
def historyFailureMessage : Message :=
  { id := "welcome", role := .assistant,
    content := "Hello! I'm ready to help you understand this PDF. Ask me any questions!",
    timestamp := "Just now" }

/-- Assistant message shown when no session key resolves (part_001 lines 183-191). -/
def noSessionMessage : Message :=
  { id := "welcome", role := .assistant,
    content := "Hello! Upload a PDF or open a chat to start. Once you open a chat, ask me anything about the document.",
    timestamp := "Just now" }

/-- The message list `setMessages` receives once a history fetch completes
(part_001 lines 202-240): on success, the expanded interactions, or the
empty-history placeholder when there are none
(`historyMessages.length ? historyMessages : [...]`); on failure, the
failure placeholder. -/
def historyMessagesFor (result : Except String (List ChatInteraction)) : List Message :=
  match result with
  | .ok its =>
    let historyMessages := expandInteractions its
    if historyMessages.length = 0 then [emptyHistoryMessage] else historyMessages
  | .error _ => [historyFailureMessage]

/-- Effect of a resolving history fetch on the `messages` state: the
`if (!isMounted) return;` guard (part_001 lines 200 and 229) makes a fetch
whose effect run was cleaned up leave the state untouched. -/
def applyHistoryResult (isMounted : Bool) (result : Except String (List ChatInteraction))
    (msgs : List Message) : List Message :=
  if isMounted then historyMessagesFor result else msgs

/-- State of the history-loading effect (part_001 lines 177-252). `epoch`
counts effect runs: React runs the cleanup of the previous run — which sets
that run's `isMounted` flag to `false` — before the next run starts, so the
flag of a fetch started at epoch `e` is still `true` exactly when the
current epoch equals `e`. -/
structure HistoryEffect where
  epoch : Nat
  activeKey : Option String
  messages : List Message
deriving DecidableEq, Repr

/-- A change of `effectiveChatId` reruns the effect: cleanup of the old run
(its `isMounted := false`), then a new run for the new key. -/
def changeSession (st : HistoryEffect) (k : Option String) : HistoryEffect :=
  { st with epoch := st.epoch + 1, activeKey := k }

/-- A history fetch that was started at epoch `startEpoch` resolves with
`result`: its closure's `isMounted` flag is `true` iff no cleanup ran since,
i.e. iff the epoch is unchanged. -/
def resolveHistory (st : HistoryEffect) (startEpoch : Nat)
    (result : Except String (List ChatInteraction)) : HistoryEffect :=
  { st with messages := applyHistoryResult (startEpoch == st.epoch) result st.messages }

/-- The component state touched by `handleSend`. -/
structure ChatState where
  input : String
  messages : List Message
deriving DecidableEq, Repr

/-- Synchronous phase of `handleSend` (part_001 lines 298-309): guard on
the trimmed input (`if (!input.trim()) return;`), build the optimistic user
message with `id = Date.now().toString()`, append it, clear the input.
`now` stands for the value of `Date.now()` at this invocation. Returns the
new state plus the user message when a dispatch was started. -/
def handleSendSync (now : Nat) (st : ChatState) : ChatState × Option Message :=
  if jsTrim st.input = "" then (st, none)
  else
    let userMessage : Message :=
      { id := toString now, role := .user, content := st.input, timestamp := "Just now" }
    ({ input := "", messages := st.messages ++ [userMessage] }, some userMessage)

/-- Models `res.answer || "(no answer)"` (part_001 lines 331 and 348): an
empty (falsy) answer is replaced by the placeholder. -/
def answerContent (ans : String) : String :=
  if strTruthy ans then ans else "(no answer)"

/-- Models the alternate-key construction of part_001 line 340: the
template literal building `chat_` + `pdfId` when `pdfId` is truthy, and
`undefined` otherwise. -/
def fallbackChatOf (pdfId : String) : Option String :=
  if strTruthy pdfId then some ("chat_" ++ pdfId) else none

/-- Externally observable outcome of the asynchronous dispatch flow. -/
structure SendOutcome where
  /-- chat ids sent to `askQuestion`, in network order. -/
  attempts : List String
  /-- the assistant Message appended at the end of the flow, if any. -/
  assistantMsg : Option Message
  /-- target chat key of the navigate call to the fallback route, if any. -/
  navigateTo : Option String
  /-- title of the toast raised, if any. -/
  toastTitle : Option String
  /-- description of the toast raised, if any. -/
  toastDesc : Option String
deriving DecidableEq, Repr

/-- Asynchronous phase of `handleSend` (part_001 lines 311-408), with the
backend abstracted as `server : chatId → question → Except error answer`.
Flow: refuse with a toast when no session key resolved; otherwise try the
primary key; on failure derive `fallbackChat` and, when it exists and
differs from the primary key, try it exactly once, navigating to it on
success; otherwise surface the original error. Each `Date.now()` read in
this flow is modelled by `now` (their exact values matter to no claim). -/
def sendAsync (effChatId : Option String) (pdfId : String)
    (server : String → String → Except String String)
    (content : String) (now : Nat) : SendOutcome :=
  match effChatId with
  | none =>
    { attempts := [], assistantMsg := none, navigateTo := none,
      toastTitle := some "Missing chat id",
      toastDesc := some "Cannot send question because chat id is missing." }
  | some primary =>
    match server primary content with
    | .ok ans =>
      { attempts := [primary],
        assistantMsg := some { id := toString (now + 1), role := .assistant,
                               content := answerContent ans, timestamp := "Just now" },
        navigateTo := none, toastTitle := none, toastDesc := none }
    | .error e =>
      match fallbackChatOf pdfId with
      | some fb =>
        if fb ≠ primary then
          match server fb content with
          | .ok ans2 =>
            { attempts := [primary, fb],
              assistantMsg := some { id := toString (now + 2), role := .assistant,
                                     content := answerContent ans2, timestamp := "Just now" },
              navigateTo := some fb, toastTitle := none, toastDesc := none }
          | .error e2 =>
            { attempts := [primary, fb],
              assistantMsg := some { id := toString (now + 3), role := .assistant,
                                     content := "Failed to get answer from server.",
                                     timestamp := "Just now" },
              navigateTo := none, toastTitle := some "Server error",
              toastDesc := some e2 }
        else
          { attempts := [primary],
            assistantMsg := some { id := toString (now + 4), role := .assistant,
                                   content := "Failed to get answer from server.",
                                   timestamp := "Just now" },
            navigateTo := none, toastTitle := some "Server error", toastDesc := some e }
      | none =>
        { attempts := [primary],
          assistantMsg := some { id := toString (now + 4), role := .assistant,
                                 content := "Failed to get answer from server.",
                                 timestamp := "Just now" },
          navigateTo := none, toastTitle := some "Server error", toastDesc := some e }

/-- Whole `handleSend` step as a state summary: the synchronous phase plus,
when a user message was dispatched, the eventual effect of the asynchronous
flow on the message list. Returns the final state and the dispatch outcome
(`none` when the trimmed-input guard refused the send and nothing else
happened). -/
def handleSend (now : Nat) (effChatId : Option String) (pdfId : String)
    (server : String → String → Except String String)
    (st : ChatState) : ChatState × Option SendOutcome :=
  match handleSendSync now st with
  | (st1, none) => (st1, none)
  | (st1, some userMessage) =>
    let o := sendAsync effChatId pdfId server userMessage.content now
    ({ st1 with messages := st1.messages ++ o.assistantMsg.toList }, some o)

/-- One run of the PDF-loading effect (part_001 lines 257-293): its
`isMounted` flag, the run-local `currentUrl` it created (as an abstract
handle number), and whether its `getPdf` fetch is still pending. -/
structure EffectRun where
  mounted : Bool
  currentUrl : Option Nat
  pending : Bool
deriving DecidableEq, Repr

/-- State of the PDF object-URL lifecycle: a fresh-handle counter, the
current effect run (none before the first run), the earlier, already
cleaned-up runs, and the list of live (created and not yet revoked)
object URLs. -/
structure PdfState where
  nextHandle : Nat
  current : Option EffectRun
  old : List EffectRun
  live : List Nat
deriving DecidableEq, Repr

/-- Events driving the effect: `start` = the effect body runs again after a
`pdfId` (or `toast`) dependency change, which first executes the previous
run's cleanup; `resolveCurrent ok` = the current run's `getPdf` fetch
completes; `resolveOld i ok` = the fetch of the i-th already-superseded run
completes late; `unmount` = component teardown, executing the current run's
cleanup. -/
inductive PdfEvent where
  | start
  | resolveCurrent (ok : Bool)
  | resolveOld (i : Nat) (ok : Bool)
  | unmount
deriving DecidableEq, Repr

/-- The cleanup function of one effect run (part_001 lines 289-292):
`isMounted = false; if (currentUrl) URL.revokeObjectURL(currentUrl);`. -/
def cleanupRun (r : EffectRun) (live : List Nat) : EffectRun × List Nat :=
  ({ r with mounted := false },
   match r.currentUrl with
   | some h => live.erase h
   | none => live)

/-- How a resolving fetch affects its run and the live-handle list. An
object URL is created only when the fetch succeeded and the run's
`isMounted` flag is still set — the `if (!isMounted) return;` guard
(part_001 line 270) precedes `URL.createObjectURL` (line 272); a failed
fetch only logs and toasts (lines 275-281). -/
def resolveRun (nextHandle : Nat) (r : EffectRun) (ok : Bool) (live : List Nat) :
    Nat × EffectRun × List Nat :=
  if r.pending then
    if ok && r.mounted then
      (nextHandle + 1,
       { r with pending := false, currentUrl := some nextHandle },
       live ++ [nextHandle])
    else (nextHandle, { r with pending := false }, live)
  else (nextHandle, r, live)

/-- One step of the PDF effect lifecycle. -/
def stepPdf (st : PdfState) (e : PdfEvent) : PdfState :=
  match e with
  | .start =>
    match st.current with
    | none =>
      { st with current := some { mounted := true, currentUrl := none, pending := true } }
    | some r =>
      let (r1, l1) := cleanupRun r st.live
      { st with current := some { mounted := true, currentUrl := none, pending := true },
                old := r1 :: st.old, live := l1 }
  | .unmount =>
    match st.current with
    | none => st
    | some r =>
      let (r1, l1) := cleanupRun r st.live
      { st with current := some r1, live := l1 }
  | .resolveCurrent ok =>
    match st.current with
    | none => st
    | some r =>
      let (n1, r1, l1) := resolveRun st.nextHandle r ok st.live
      { st with nextHandle := n1, current := some r1, live := l1 }
  | .resolveOld i ok =>
    match st.old[i]? with
    | none => st
    | some r =>
      let (n1, r1, l1) := resolveRun st.nextHandle r ok st.live
      { st with nextHandle := n1, old := st.old.set i r1, live := l1 }

/-- Component mount: no run yet, no live handle. -/
def initPdfState : PdfState := { nextHandle := 0, current := none, old := [], live := [] }

def runPdfEvents (events : List PdfEvent) : PdfState :=
  events.foldl stepPdf initPdfState

/-- Lifecycle invariant: superseded runs are unmounted forever; the live
handles are exactly the current run's `currentUrl` while it is mounted; and
a run whose fetch is still pending has created no URL yet. -/
def PdfInv (st : PdfState) : Prop :=
  (∀ r ∈ st.old, r.mounted = false) ∧
  (st.live = match st.current with
             | none => []
             | some r => if r.mounted then r.currentUrl.toList else []) ∧
  (∀ r, st.current = some r → r.pending = true → r.currentUrl = none)

theorem pdfInv_init : PdfInv initPdfState := by
  refine ⟨?_, rfl, ?_⟩
  · intro r hr
    simp [initPdfState] at hr
  · intro r hr
    simp [initPdfState] at hr

theorem cleanupRun_live (r : EffectRun) (live : List Nat)
    (h2 : live = if r.mounted then r.currentUrl.toList else []) :
    (cleanupRun r live).2 = [] := by
  unfold cleanupRun
  cases hc : r.currentUrl with
  | none =>
    cases hm : r.mounted <;> simp [hm, hc] at h2 <;> simp [h2]
  | some u =>
    cases hm : r.mounted with
    | false => simp [hm] at h2; simp [h2]
    | true =>
      simp [hm, hc] at h2
      simp [h2]

theorem resolveRun_of_unmounted (n : Nat) (r : EffectRun) (ok : Bool) (live : List Nat)
    (hm : r.mounted = false) :
    resolveRun n r ok live = (n, { r with pending := false }, live) := by
  unfold resolveRun
  cases hp : r.pending with
  | false =>
    simp [hp]
    cases r with
    | mk m c p => simp at hp; simp [hp]
  | true => simp [hp, hm]

theorem pdfInv_step (st : PdfState) (e : PdfEvent) (h : PdfInv st) :
    PdfInv (stepPdf st e) := by
  obtain ⟨n, cur, oldRuns, live⟩ := st
  obtain ⟨h1, h2, h3⟩ := h
  cases e with
  | start =>
    cases cur with
    | none =>
      refine ⟨h1, ?_, ?_⟩
      · simpa [stepPdf] using h2
      · intro r hr _
        simp [stepPdf] at hr
        simp [← hr]
    | some r0 =>
      refine ⟨?_, ?_, ?_⟩
      · intro r hr
        simp [stepPdf] at hr
        rcases hr with hr | hr
        · simp [hr, cleanupRun]
        · exact h1 r hr
      · simpa [stepPdf] using cleanupRun_live r0 live (by simpa using h2)
      · intro r hr _
        simp [stepPdf] at hr
        simp [← hr]
  | unmount =>
    cases cur with
    | none => exact ⟨h1, h2, h3⟩
    | some r0 =>
      refine ⟨h1, ?_, ?_⟩
      · have hl := cleanupRun_live r0 live (by simpa using h2)
        simp [stepPdf, cleanupRun] at hl ⊢
        simp [hl]
      · intro r hr hp
        simp [stepPdf, cleanupRun] at hr
        rw [← hr] at hp
        simp at hp
        have h0 := h3 r0 rfl (by simpa using hp)
        rw [← hr]
        simpa using h0
  | resolveCurrent ok =>
    cases cur with
    | none => exact ⟨h1, h2, h3⟩
    | some r0 =>
      simp at h2
      have h0 := h3 r0 rfl
      cases hp : r0.pending with
      | false =>
        have hrr : resolveRun n r0 ok live = (n, r0, live) := by
          unfold resolveRun
          simp [hp]
        refine ⟨h1, ?_, ?_⟩
        · simp [stepPdf, hrr]
          exact h2
        · intro r hr hpr
          simp [stepPdf, hrr] at hr
          rw [← hr] at hpr
          rw [hp] at hpr
          simp at hpr
      | true =>
        have hcu : r0.currentUrl = none := h0 hp
        cases hok : ok with
        | false =>
          have hrr : resolveRun n r0 false live = (n, { r0 with pending := false }, live) := by
            unfold resolveRun
            simp [hp]
          refine ⟨h1, ?_, ?_⟩
          · simp [stepPdf, hrr]
            exact h2
          · intro r hr hpr
            simp [stepPdf, hrr] at hr
            rw [← hr] at hpr
            simp at hpr
        | true =>
          cases hm : r0.mounted with
          | false =>
            have hrr : resolveRun n r0 true live = (n, { r0 with pending := false }, live) :=
              resolveRun_of_unmounted n r0 true live hm
            refine ⟨h1, ?_, ?_⟩
            · simp [stepPdf, hrr, hm]
              simp [hm] at h2
              exact h2
            · intro r hr hpr
              simp [stepPdf, hrr] at hr
              rw [← hr] at hpr
              simp at hpr
          | true =>
            have hrr : resolveRun n r0 true live =
                (n + 1, { r0 with pending := false, currentUrl := some n }, live ++ [n]) := by
              unfold resolveRun
              simp [hp, hm]
            refine ⟨h1, ?_, ?_⟩
            · simp [stepPdf, hrr, hm]
              simp [hm, hcu] at h2
              simp [h2]
            · intro r hr hpr
              simp [stepPdf, hrr] at hr
              rw [← hr] at hpr
              simp at hpr
  | resolveOld i ok =>
    cases hg : oldRuns[i]? with
    | none =>
      refine ⟨?_, ?_, ?_⟩ <;> simp [stepPdf, hg]
      · exact h1
      · simpa using h2
      · intro r hr
        exact h3 r (by simpa using hr)
    | some r0 =>
      have hm0 : r0.mounted = false := h1 r0 (List.getElem?_mem hg)
      have hrr : resolveRun n r0 ok live = (n, { r0 with pending := false }, live) :=
        resolveRun_of_unmounted n r0 ok live hm0
      refine ⟨?_, ?_, ?_⟩
      · intro r hr
        simp [stepPdf, hg, hrr] at hr
        rcases List.mem_or_eq_of_mem_set hr with hr | hr
        · exact h1 r hr
        · simp [hr, hm0]
      · simp [stepPdf, hg, hrr]
        simpa using h2
      · intro r hr hpr
        simp [stepPdf, hg, hrr] at hr
        exact h3 r (by simpa using hr) hpr

theorem pdfInv_run (events : List PdfEvent) : PdfInv (runPdfEvents events) := by
  rw [runPdfEvents]
  induction events using List.reverseRecOn with
  | nil => exact pdfInv_init
  | append_singleton es e ih =>
    rw [List.foldl_append]
    exact pdfInv_step _ e ih

theorem pdfInv_live_le_one (st : PdfState) (h : PdfInv st) : st.live.length ≤ 1 := by
  obtain ⟨-, h2, -⟩ := h
  rw [h2]
  cases st.current with
  | none => simp
  | some r =>
    cases hm : r.mounted <;> cases hc : r.currentUrl <;> simp [hm, hc]

theorem pdfInv_unmount_live (st : PdfState) (h : PdfInv st) :
    (stepPdf st .unmount).live = [] := by
  obtain ⟨-, h2, -⟩ := h
  cases hc : st.current with
  | none =>
    simp [stepPdf, hc]
    rw [hc] at h2
    simpa using h2
  | some r =>
    simp [stepPdf, hc]
    exact cleanupRun_live r st.live (by rw [hc] at h2; simpa using h2)

theorem chatConcat_ne_empty (s : String) : ("chat_" ++ s) ≠ "" := by
  intro h
  have hd := congrArg String.data h
  rw [String.data_append] at hd
  rw [List.append_eq_nil] at hd
  exact absurd hd.1 (by decide)

theorem chatConcat_truthy (s : String) : strTruthy ("chat_" ++ s) = true := by
  simp [strTruthy, chatConcat_ne_empty s]

/-- Claim C1: `IdentifierResolver.resolve` returns the same session key as
the three-case reference definition written from the spec's words, for all
(routeParam, queryParam) pairs; in particular `routeParam = "chat_abc"`
yields session key `"chat_abc"` regardless of the query parameter. Purity
and determinism hold by construction: the resolver embeds as the pure
function `resolve` of exactly its two inputs. -/
theorem resolver_matches_reference :
    (∀ route query, (resolve route query).1 = resolveSpecRef route query) ∧
    (∀ query, (resolve (some "chat_abc") query).1 = some "chat_abc") := by
  refine ⟨effectiveChatId_eq_spec, ?_⟩
  intro query
  have h : (strTruthy "chat_abc" && jsStartsWith "chat_abc" "chat_") = true := by decide
  simp [resolve, effectiveChatId, h]

/-- Claim C3 counterexample: the route param `"srv-key-1"` does not start
with `"chat_"`, and the resolver does NOT pass it through: with no query
parameter the resolved session key is `none` (not `some "srv-key-1"`), and
with a query parameter it is the derived `"chat_doc1"`. -/
theorem nonPrefixed_key_not_passed_through :
    (resolve (some "srv-key-1") none).1 ≠ some "srv-key-1" ∧
    (resolve (some "srv-key-1") none).1 = none ∧
    (resolve (some "srv-key-1") (some "doc1")).1 = some "chat_doc1" := by
  decide

/-- Claim C3 amended: a route param that does not start with `"chat_"` is
never used as the session key; the resolver instead derives
`"chat_" + documentKey` when a documentKey is available and yields no
session key otherwise, so every session key it produces starts with
`"chat_"`. -/
theorem nonPrefixed_key_dropped (p : String) (q : Option String)
    (h : jsStartsWith p "chat_" = false) :
    (resolve (some p) q).1 =
      (if strTruthy (pdfIdOf q) then some ("chat_" ++ pdfIdOf q) else none) ∧
    (∀ k, (resolve (some p) q).1 = some k → jsStartsWith k "chat_" = true) := by
  constructor
  · simp [resolve, effectiveChatId, h]
  · intro k hk
    simp [resolve, effectiveChatId, h] at hk
    cases ht : strTruthy (pdfIdOf q) with
    | false => rw [ht] at hk; simp at hk
    | true =>
      rw [ht] at hk
      simp at hk
      rw [← hk]
      exact jsStartsWith_append "chat_" (pdfIdOf q)

theorem nonPrefixed_key_dropped_witness :
    (resolve (some "srv-key-1") (some "doc1")).1 =
      (if strTruthy (pdfIdOf (some "doc1"))
       then some ("chat_" ++ pdfIdOf (some "doc1")) else none) ∧
    (∀ k, (resolve (some "srv-key-1") (some "doc1")).1 = some k →
      jsStartsWith k "chat_" = true) :=
  nonPrefixed_key_dropped "srv-key-1" (some "doc1") (by decide)

/-- First send of the collision scenario: input "hi" at clock 1000. -/
def collisionState1 : ChatState := { input := "hi", messages := [] }

/-- Second send of the collision scenario: input "again", still at clock
1000, over the message list the first send produced. -/
def collisionState2 : ChatState :=
  { input := "again", messages := (handleSendSync 1000 collisionState1).1.messages }

/-- Claim C2 counterexample: the optimistic user message id is
`Date.now().toString()`, so two sends in the same millisecond (clock value
1000 twice) produce two messages with the SAME id `"1000"` — ids are not
collision-free within the instance lifetime; moreover the non-empty,
whitespace-only content `" "` appends nothing at all. -/
theorem optimistic_id_collision :
    ((handleSendSync 1000 collisionState1).2.map Message.id = some "1000" ∧
     (handleSendSync 1000 collisionState2).2.map Message.id = some "1000") ∧
    handleSendSync 1000 { input := " ", messages := [] } =
      ({ input := " ", messages := [] }, none) := by
  decide

/-- Claim C2 amended: for every content whose trim is non-empty, the send
handler immediately (synchronously, before any network round trip) appends
a user Message whose id is the current clock value `Date.now().toString()`
— an id that is non-decreasing with the clock but shared by sends in the
same millisecond — and that Message is in the message list returned to the
UI; the `Message` type carries no deliveryState field, pending-ness being
exactly this pre-confirmation presence. -/
theorem optimistic_append (now : Nat) (st : ChatState) (h : jsTrim st.input ≠ "") :
    handleSendSync now st =
      ({ input := "",
         messages := st.messages ++
           [{ id := toString now, role := .user,
              content := st.input, timestamp := "Just now" }] },
       some { id := toString now, role := .user,
              content := st.input, timestamp := "Just now" }) := by
  unfold handleSendSync
  simp [h]

theorem optimistic_append_witness :
    handleSendSync 5 { input := "hi", messages := [] } =
      ({ input := "",
         messages := [{ id := toString 5, role := .user,
                        content := "hi", timestamp := "Just now" }] },
       some { id := toString 5, role := .user,
              content := "hi", timestamp := "Just now" }) :=
  optimistic_append 5 { input := "hi", messages := [] } (by decide)

/-- Claim C8: a successful history load with zero interactions yields
exactly one assistant Message, and its text differs from the text of the
single assistant Message synthesized when the backend call fails, so the
two states are distinguishable. -/
theorem emptyHistory_distinct_from_failure :
    historyMessagesFor (.ok []) = [emptyHistoryMessage] ∧
    emptyHistoryMessage.role = .assistant ∧
    (∀ e, historyMessagesFor (.error e) = [historyFailureMessage]) ∧
    emptyHistoryMessage.content ≠ historyFailureMessage.content := by
  refine ⟨rfl, rfl, fun e => rfl, by decide⟩

/-- Claim C9: with no resolved session key the question dispatch refuses
immediately: no network attempt is made, no assistant message and no
migration are produced, and the failure surfaces as the "Missing chat id"
notification (the spec's NoSessionError). -/
theorem noSession_no_network :
    ∀ (pdfId : String) (server : String → String → Except String String)
      (content : String) (now : Nat),
      sendAsync none pdfId server content now =
        { attempts := [], assistantMsg := none, navigateTo := none,
          toastTitle := some "Missing chat id",
          toastDesc := some "Cannot send question because chat id is missing." } :=
  fun _ _ _ _ => rfl

/-- Claim C10: when the input is empty or whitespace-only, send is a no-op
at the public interface: the message log and the input field are unchanged
and no dispatch (hence no network request) is started. -/
theorem blank_input_noop (now : Nat) (effChatId : Option String) (pdfId : String)
    (server : String → String → Except String String) (st : ChatState)
    (h : jsTrim st.input = "") :
    handleSend now effChatId pdfId server st = (st, none) := by
  unfold handleSend handleSendSync
  simp [h]

theorem blank_input_noop_witness :
    handleSend 7 (some "chat_a") "a" (fun _ _ => .error "Ask failed")
      { input := "   ", messages := [] } = ({ input := "   ", messages := [] }, none) :=
  blank_input_noop 7 (some "chat_a") "a" (fun _ _ => .error "Ask failed")
    { input := "   ", messages := [] } (by decide)

/-- Claim C6: if the active session changes from A to B before the history
fetch started under A resolves, the late result leaves the message store
untouched: the change reran the effect, whose cleanup cleared the old
fetch's liveness flag, so the `if (!isMounted) return;` guard discards the
result unconditionally. -/
theorem stale_history_discarded (st : HistoryEffect) (B : Option String)
    (result : Except String (List ChatInteraction)) (hAB : B ≠ st.activeKey) :
    (resolveHistory (changeSession st B) st.epoch result).messages =
      (changeSession st B).messages ∧
    (changeSession st B).activeKey = B := by
  refine ⟨?_, rfl⟩
  unfold resolveHistory changeSession applyHistoryResult
  simp

theorem stale_history_discarded_witness :
    (resolveHistory
        (changeSession { epoch := 0, activeKey := some "chat_a", messages := [] }
          (some "chat_b"))
        0 (.ok [])).messages =
      (changeSession { epoch := 0, activeKey := some "chat_a", messages := [] }
        (some "chat_b")).messages ∧
    (changeSession { epoch := 0, activeKey := some "chat_a", messages := [] }
      (some "chat_b")).activeKey = some "chat_b" :=
  stale_history_discarded { epoch := 0, activeKey := some "chat_a", messages := [] }
    (some "chat_b") (.ok []) (by decide)

/-- Claim C4: the dispatch makes at most two network attempts for any
question (at most one fallback, never more); and when the primary attempt
fails and the alternate key `"chat_" + pdfId` is unavailable or equal to
the primary key, exactly the one primary attempt is made and the flow fails
with the original error (the "Server error" toast carries the primary
error's message) with no migration. -/
theorem fallback_at_most_once (primary pdfId content : String)
    (server : String → String → Except String String) (now : Nat) (e : String) :
    (∀ k, (sendAsync k pdfId server content now).attempts.length ≤ 2) ∧
    (server primary content = .error e →
      (fallbackChatOf pdfId = none ∨ fallbackChatOf pdfId = some primary) →
      (sendAsync (some primary) pdfId server content now).attempts = [primary] ∧
      (sendAsync (some primary) pdfId server content now).toastTitle = some "Server error" ∧
      (sendAsync (some primary) pdfId server content now).toastDesc = some e ∧
      (sendAsync (some primary) pdfId server content now).navigateTo = none) := by
  constructor
  · intro k
    cases k with
    | none => simp [sendAsync]
    | some p =>
      cases hs : server p content with
      | ok a => simp [sendAsync, hs]
      | error er =>
        cases hf : fallbackChatOf pdfId with
        | none => simp [sendAsync, hs, hf]
        | some fb =>
          by_cases hne : fb = p
          · simp [sendAsync, hs, hf, hne]
          · cases hs2 : server fb content with
            | ok a2 => simp [sendAsync, hs, hf, hne, hs2]
            | error e2 => simp [sendAsync, hs, hf, hne, hs2]
  · intro hp hfb
    rcases hfb with hfb | hfb
    · refine ⟨?_, ?_, ?_, ?_⟩ <;> simp [sendAsync, hp, hfb]
    · refine ⟨?_, ?_, ?_, ?_⟩ <;> simp [sendAsync, hp, hfb]

theorem fallback_at_most_once_witness :
    ((sendAsync (some "chat_x") "" (fun _ _ => Except.error "Ask failed") "q" 0).attempts
       = ["chat_x"]) ∧
    ((sendAsync (some "chat_x") "" (fun _ _ => Except.error "Ask failed") "q" 0).toastTitle
       = some "Server error") ∧
    ((sendAsync (some "chat_x") "" (fun _ _ => Except.error "Ask failed") "q" 0).toastDesc
       = some "Ask failed") ∧
    ((sendAsync (some "chat_x") "" (fun _ _ => Except.error "Ask failed") "q" 0).navigateTo
       = none) :=
  (fallback_at_most_once "chat_x" "" "q" (fun _ _ => Except.error "Ask failed") 0
    "Ask failed").2 rfl (Or.inl (by decide))

/-- Claim C5: the session-migration event (the `navigate` to the fallback
chat route) fires exactly when the primary dispatch failed and the dispatch
against the distinct alternate key `"chat_" + pdfId` succeeded; in that
outcome exactly one assistant reply Message is produced, and the migrated
key resolves to itself afterwards (it becomes the active session key); in
every other outcome no migration event fires. -/
theorem migration_iff_fallback_success (k : Option String) (pdfId content : String)
    (server : String → String → Except String String) (now : Nat) :
    (∀ fb, (sendAsync k pdfId server content now).navigateTo = some fb ↔
      (fb = "chat_" ++ pdfId ∧ strTruthy pdfId = true ∧
       ∃ primary, k = some primary ∧ fb ≠ primary ∧
         (∃ e, server primary content = .error e) ∧
         (∃ a, server fb content = .ok a))) ∧
    (∀ fb, (sendAsync k pdfId server content now).navigateTo = some fb →
      (∃ a, server fb content = .ok a ∧
        (sendAsync k pdfId server content now).assistantMsg =
          some { id := toString (now + 2), role := .assistant,
                 content := answerContent a, timestamp := "Just now" }) ∧
      effectiveChatId (some fb) pdfId = some fb) := by
  have hmain : ∀ fb, (sendAsync k pdfId server content now).navigateTo = some fb →
      (fb = "chat_" ++ pdfId ∧ strTruthy pdfId = true ∧
       (∃ primary, k = some primary ∧ fb ≠ primary ∧
         (∃ e, server primary content = .error e) ∧
         (∃ a, server fb content = .ok a)) ∧
       (∃ a, server fb content = .ok a ∧
        (sendAsync k pdfId server content now).assistantMsg =
          some { id := toString (now + 2), role := .assistant,
                 content := answerContent a, timestamp := "Just now" })) := by
    intro fb hnav
    cases k with
    | none => simp [sendAsync] at hnav
    | some p =>
      cases hs : server p content with
      | ok a => simp [sendAsync, hs] at hnav
      | error er =>
        cases hf : fallbackChatOf pdfId with
        | none => simp [sendAsync, hs, hf] at hnav
        | some fb0 =>
          by_cases hne : fb0 = p
          · simp [sendAsync, hs, hf, hne] at hnav
          · cases hs2 : server fb0 content with
            | ok a2 =>
              simp [sendAsync, hs, hf, hne, hs2] at hnav
              have hfb0 : fb0 = fb := hnav
              have hft : strTruthy pdfId = true := by
                by_contra hft
                have : fallbackChatOf pdfId = none := by
                  simp [fallbackChatOf, hft]
                rw [this] at hf
                exact Option.noConfusion hf
              have hfc : fb0 = "chat_" ++ pdfId := by
                have := hf
                rw [fallbackChatOf, hft] at this
                simpa using this.symm
              subst hfb0
              refine ⟨hfc, hft, ⟨p, rfl, hne, ⟨er, hs⟩, ⟨a2, hs2⟩⟩, ⟨a2, hs2, ?_⟩⟩
              simp [sendAsync, hs, hf, hne, hs2]
            | error e2 =>
              simp [sendAsync, hs, hf, hne, hs2] at hnav
  constructor
  · intro fb
    constructor
    · intro hnav
      obtain ⟨hc1, hc2, hc3, -⟩ := hmain fb hnav
      exact ⟨hc1, hc2, hc3⟩
    · rintro ⟨hfc, hft, p, hk, hne, ⟨e, he⟩, ⟨a, ha⟩⟩
      subst hk
      have hf : fallbackChatOf pdfId = some fb := by
        rw [fallbackChatOf, hft]
        simp [hfc]
      simp [sendAsync, he, hf, hne, ha]
  · intro fb hnav
    obtain ⟨hc1, -, -, hc4⟩ := hmain fb hnav
    refine ⟨hc4, ?_⟩
    have ht : strTruthy fb = true := hc1 ▸ chatConcat_truthy pdfId
    have hw : jsStartsWith fb "chat_" = true := by
      rw [hc1]
      exact jsStartsWith_append "chat_" pdfId
    simp [effectiveChatId, ht, hw]

/-- A backend oracle for the witness: the key `"chat_doc"` answers, every
other key fails — the primary attempt fails, the fallback succeeds. -/
def demoServer : String → String → Except String String :=
  fun key _ => if key = "chat_doc" then .ok "the answer" else .error "Ask failed"

theorem migration_iff_fallback_success_witness :
    (∀ fb, (sendAsync (some "chat_x") "doc" demoServer "q" 0).navigateTo = some fb ↔
      (fb = "chat_" ++ "doc" ∧ strTruthy "doc" = true ∧
       ∃ primary, (some "chat_x" : Option String) = some primary ∧ fb ≠ primary ∧
         (∃ e, demoServer primary "q" = .error e) ∧
         (∃ a, demoServer fb "q" = .ok a))) ∧
    (∀ fb, (sendAsync (some "chat_x") "doc" demoServer "q" 0).navigateTo = some fb →
      (∃ a, demoServer fb "q" = .ok a ∧
        (sendAsync (some "chat_x") "doc" demoServer "q" 0).assistantMsg =
          some { id := toString (0 + 2), role := .assistant,
                 content := answerContent a, timestamp := "Just now" }) ∧
      effectiveChatId (some fb) "doc" = some fb) :=
  migration_iff_fallback_success (some "chat_x") "doc" "q" demoServer 0

/-- Claim C7: over every sequence of effect events — `pdfId` changes,
fetch resolutions (timely or stale, successful or failed) and teardown —
at most one display handle (object URL) is live at any instant, and the
cleanup run at teardown leaves no live handle. The previous handle is
released by the cleanup that precedes the next effect run, hence before
the next handle is created. -/
theorem display_handles_at_most_one (events : List PdfEvent) :
    (runPdfEvents events).live.length ≤ 1 ∧
    (stepPdf (runPdfEvents events) .unmount).live = [] :=
  ⟨pdfInv_live_le_one _ (pdfInv_run events),
   pdfInv_unmount_live _ (pdfInv_run events)⟩

end PdfChat
